import Mathlib

/-!
Verification of the soccer outcome predictor and team-rating store of
`src/main.py`.

Python floats are modelled by real numbers; Python `round(x, n)` is
modelled by rounding `x * 10^n` to the nearest integer.  (Python rounds
exact decimal midpoints to even while `round` rounds them up; the two
agree everywhere else, and no quantity rounded below sits at a midpoint
in any statement proved here.)  Stored ratings are modelled by rationals
so the document-store operations stay executable; they are cast to reals
when the predictor consumes them.

The module `database.py` that `main.py` imports (`db`, `create_document`)
is not among the sources, so the document store itself is modelled from
the spec: a list of documents supporting find-one / update-one /
insert-one keyed by `team_name`, with an optional connection handle
(`Option Store`, `none` meaning "not configured").
-/

namespace SoccerPredictor

/-- A stored team-rating document.  `rating` is optional because
`main.py` reads it defensively with `.get("rating", 1500.0)`. -/
structure TeamDoc where
  oid : ℕ
  team_name : String
  rating : Option ℚ
  deriving DecidableEq, Repr

/-- The `teamrating` collection. -/
abbrev Store := List TeamDoc

/-- Request body of `POST /api/teams/rating`. -/
structure TeamRating where
  team_name : String
  rating : ℚ
  deriving DecidableEq, Repr

/-- Request body of `POST /api/predict`. -/
structure PredictionRequest where
  home_team : String
  away_team : String
  home_score : ℤ
  away_score : ℤ
  minute : ℤ
  is_neutral : Bool

/-- Response body of `POST /api/predict`. -/
structure PredictionResult where
  p_home : ℝ
  p_draw : ℝ
  p_away : ℝ
  effective_diff : ℝ

/-- Modelled from the spec: the store supports "find-one by a string
key"; `db["teamrating"].find_one({"team_name": name})` returns the first
document whose `team_name` equals `name`, or nothing. -/
def find_one (s : Store) (name : String) : Option TeamDoc :=
  s.find? (fun d => d.team_name == name)

/-- Modelled from the spec: a fresh `_id` for an inserted document
(strictly larger than every `_id` already present). -/
def freshId (s : Store) : ℕ :=
  s.foldr (fun d m => max d.oid m) 0 + 1

/-- Modelled from the spec: `create_document` lives in `database.py`,
which is not among the sources; the spec describes the store as
supporting "insert-one by a string key", so insertion appends a new
document with a fresh `_id`. -/
def create_document (s : Store) (name : String) (r : Option ℚ) : Store :=
  s ++ [⟨freshId s, name, r⟩]

/-- Modelled from the spec: `update_one({"_id": i}, {"$set": doc})`
replaces the fields of the first document whose `_id` matches `i`,
keeping its `_id`. -/
def update_one : Store → ℕ → String → ℚ → Store
  | [], _, _, _ => []
  | d :: rest, i, name, r =>
      if d.oid = i then ⟨d.oid, name, some r⟩ :: rest
      else d :: update_one rest i name r

def dbNotConfiguredMsg : String := "Database not configured"

def invalidProbMsg : String := "Invalid probabilities computed"

def createdStatus : String := "created"

def updatedStatus : String := "updated"

/-- `POST /api/teams/rating` (`upsert_team_rating` in `main.py`): raises
500 when the store is not configured; otherwise matches on `team_name`,
updating the matched document in place or inserting a new one, and
reports which happened.  The resulting store is returned alongside the
status string. -/
def upsert_team_rating (db : Option Store) (team : TeamRating) :
    Except String (Store × String) :=
  match db with
  | none => Except.error dbNotConfiguredMsg
  | some s =>
    match find_one s team.team_name with
    | some existing =>
        Except.ok (update_one s existing.oid team.team_name team.rating, updatedStatus)
    | none =>
        Except.ok (create_document s team.team_name (some team.rating), createdStatus)

/-- `GET /api/teams/rating` (`get_team_rating` in `main.py`): raises 500
when the store is not configured; otherwise returns the stored rating,
defaulting to `1500.0` when no document exists or the document lacks a
`rating` field. -/
def get_team_rating (db : Option Store) (team_name : String) :
    Except String (String × ℚ) :=
  match db with
  | none => Except.error dbNotConfiguredMsg
  | some s =>
    match find_one s team_name with
    | none => Except.ok (team_name, 1500)
    | some d => Except.ok (d.team_name, d.rating.getD 1500)

/-- The store produced by one `upsert_team_rating` call on a configured
store (the endpoint's write effect, split out for reasoning). -/
def upsertStore (s : Store) (team : TeamRating) : Store :=
  match find_one s team.team_name with
  | some existing => update_one s existing.oid team.team_name team.rating
  | none => create_document s team.team_name (some team.rating)

/-- The status string reported by one `upsert_team_rating` call on a
configured store. -/
def upsertStatus (s : Store) (team : TeamRating) : String :=
  match find_one s team.team_name with
  | some _ => updatedStatus
  | none => createdStatus

/-- The store after `k` repeated upserts of the same payload. -/
def upsertIter (s : Store) (team : TeamRating) : ℕ → Store
  | 0 => s
  | Nat.succ k => upsertStore (upsertIter s team k) team

/-- `logistic` from `main.py`: `1.0 / (1.0 + math.exp(-x))`. -/
noncomputable def logistic (x : ℝ) : ℝ := 1 / (1 + Real.exp (-x))

/-- `HOME_ADVANTAGE = 60.0` (Elo points). -/
def HOME_ADVANTAGE : ℝ := 60.0

/-- `GOAL_VALUE = 50.0` (Elo-equivalent per net goal lead). -/
def GOAL_VALUE : ℝ := 50.0

/-- `MINUTE_DECAY = 0.025` (confidence scaling as the game progresses). -/
noncomputable def MINUTE_DECAY : ℝ := 0.025

/-- The rating differential of `predict` after home advantage and the
current score impact (`diff` in `main.py`, lines 103-108). -/
noncomputable def diffR (r_home r_away : ℝ) (req : PredictionRequest) : ℝ :=
  r_home - r_away + (if req.is_neutral then 0 else HOME_ADVANTAGE)
    + ((req.home_score : ℝ) - (req.away_score : ℝ)) * GOAL_VALUE

/-- `minute_factor = logistic((minute - 45) * MINUTE_DECAY)`. -/
noncomputable def minuteFactor (req : PredictionRequest) : ℝ :=
  logistic (((req.minute : ℝ) - 45) * MINUTE_DECAY)

/-- `effective_diff = diff * (0.7 + 0.6 * minute_factor)`. -/
noncomputable def effectiveDiff (r_home r_away : ℝ) (req : PredictionRequest) : ℝ :=
  diffR r_home r_away req * (0.7 + 0.6 * minuteFactor req)

/-- `p_home_raw = logistic(effective_diff / 400.0 * math.log(10))`. -/
noncomputable def pHomeRaw (r_home r_away : ℝ) (req : PredictionRequest) : ℝ :=
  logistic (effectiveDiff r_home r_away req / 400 * Real.log 10)

/-- `p_away_raw = 1.0 - p_home_raw`. -/
noncomputable def pAwayRaw (r_home r_away : ℝ) (req : PredictionRequest) : ℝ :=
  1 - pHomeRaw r_home r_away req

/-- `closeness = math.exp(-abs(effective_diff) / 200.0)`. -/
noncomputable def closeness (r_home r_away : ℝ) (req : PredictionRequest) : ℝ :=
  Real.exp (-|effectiveDiff r_home r_away req| / 200)

/-- `late_draw_boost = 0.1 + 0.2 * logistic((minute - 60) * 0.05)`. -/
noncomputable def lateDrawBoost (req : PredictionRequest) : ℝ :=
  0.1 + 0.2 * logistic (((req.minute : ℝ) - 60) * 0.05)

/-- `p_draw = min(0.55, closeness * late_draw_boost)`. -/
noncomputable def pDraw (r_home r_away : ℝ) (req : PredictionRequest) : ℝ :=
  min 0.55 (closeness r_home r_away req * lateDrawBoost req)

/-- `scale = 1.0 - p_draw`. -/
noncomputable def scaleF (r_home r_away : ℝ) (req : PredictionRequest) : ℝ :=
  1 - pDraw r_home r_away req

/-- `p_home = p_home_raw * scale` (before renormalization). -/
noncomputable def pHome (r_home r_away : ℝ) (req : PredictionRequest) : ℝ :=
  pHomeRaw r_home r_away req * scaleF r_home r_away req

/-- `p_away = p_away_raw * scale` (before renormalization). -/
noncomputable def pAway (r_home r_away : ℝ) (req : PredictionRequest) : ℝ :=
  pAwayRaw r_home r_away req * scaleF r_home r_away req

/-- `total = p_home + p_draw + p_away`. -/
noncomputable def total (r_home r_away : ℝ) (req : PredictionRequest) : ℝ :=
  pHome r_home r_away req + pDraw r_home r_away req + pAway r_home r_away req

/-- `p_home /= total`: the renormalized home-win probability. -/
noncomputable def pHomeN (r_home r_away : ℝ) (req : PredictionRequest) : ℝ :=
  pHome r_home r_away req / total r_home r_away req

/-- `p_draw /= total`: the renormalized draw probability. -/
noncomputable def pDrawN (r_home r_away : ℝ) (req : PredictionRequest) : ℝ :=
  pDraw r_home r_away req / total r_home r_away req

/-- `p_away /= total`: the renormalized away-win probability. -/
noncomputable def pAwayN (r_home r_away : ℝ) (req : PredictionRequest) : ℝ :=
  pAway r_home r_away req / total r_home r_away req

/-- Python `round(x, 4)`. -/
noncomputable def round4 (x : ℝ) : ℝ := ((round (x * 10000) : ℤ) : ℝ) / 10000

/-- Python `round(x, 2)`. -/
noncomputable def round2 (x : ℝ) : ℝ := ((round (x * 100) : ℤ) : ℝ) / 100

/-- The `PredictionResult` that `predict` builds (lines 135-140). -/
noncomputable def predictResult (r_home r_away : ℝ) (req : PredictionRequest) :
    PredictionResult :=
  ⟨round4 (pHomeN r_home r_away req), round4 (pDrawN r_home r_away req),
   round4 (pAwayN r_home r_away req), round2 (effectiveDiff r_home r_away req)⟩

/-- The computation part of `predict`, given the two ratings: raises 400
(`invalidProbMsg`) when the probability total is not positive, otherwise
returns the rounded, renormalized result. -/
noncomputable def predictCore (r_home r_away : ℝ) (req : PredictionRequest) :
    Except String PredictionResult :=
  if total r_home r_away req ≤ 0 then Except.error invalidProbMsg
  else Except.ok (predictResult r_home r_away req)

/-- The rating `predict` derives from a lookup in a configured store:
`float(hdoc.get("rating", 1500.0)) if hdoc else 1500.0`. -/
noncomputable def ratingOf (s : Store) (name : String) : ℝ :=
  match find_one s name with
  | none => 1500.0
  | some d => ((d.rating.getD 1500 : ℚ) : ℝ)

/-- `POST /api/predict` (`predict` in `main.py`): both ratings default
to `1500.0` when the store is not configured (lines 94-100 — no error is
raised in that case), then the core computation runs. -/
noncomputable def predict (db : Option Store) (req : PredictionRequest) :
    Except String PredictionResult :=
  match db with
  | none => predictCore 1500.0 1500.0 req
  | some s => predictCore (ratingOf s req.home_team) (ratingOf s req.away_team) req

/-- The home-side probability mass as a function of the effective diff
`e` and the late-draw boost `b`:
`logistic(e/400*ln 10) * (1 - b * exp(-|e|/200))`.  `pHomeN` has this
shape (and `pAwayN` has it at `-e`), which drives the monotonicity and
symmetry results below. -/
noncomputable def sideProb (b e : ℝ) : ℝ :=
  logistic (e / 400 * Real.log 10) * (1 - b * Real.exp (-|e| / 200))

/-! ### Basic facts about the logistic function -/

lemma logistic_pos (x : ℝ) : 0 < logistic x := by
  unfold logistic
  positivity

lemma logistic_lt_one (x : ℝ) : logistic x < 1 := by
  unfold logistic
  rw [div_lt_one (by positivity)]
  linarith [Real.exp_pos (-x)]

lemma logistic_eq_exp (x : ℝ) : logistic x = Real.exp x / (1 + Real.exp x) := by
  unfold logistic
  rw [Real.exp_neg]
  have h := (Real.exp_pos x).ne'
  field_simp
  ring

lemma logistic_neg (x : ℝ) : logistic (-x) = 1 - logistic x := by
  rw [logistic_eq_exp, logistic_eq_exp, Real.exp_neg]
  have h := (Real.exp_pos x).ne'
  have h1 : (0:ℝ) < 1 + Real.exp x := by positivity
  field_simp
  ring

lemma logistic_strictMono : StrictMono logistic := by
  intro x y hxy
  rw [logistic_eq_exp, logistic_eq_exp]
  have hx := Real.exp_pos x
  have hy := Real.exp_pos y
  rw [div_lt_div_iff₀ (by linarith) (by linarith)]
  have : Real.exp x < Real.exp y := Real.exp_lt_exp.mpr hxy
  nlinarith

lemma one_sub_logistic_le_exp_neg (x : ℝ) : 1 - logistic x ≤ Real.exp (-x) := by
  rw [logistic_eq_exp, Real.exp_neg]
  have hx := Real.exp_pos x
  have h1 : (0:ℝ) < 1 + Real.exp x := by linarith
  have h : 1 - Real.exp x / (1 + Real.exp x) = 1 / (1 + Real.exp x) := by
    field_simp
  rw [h, inv_eq_one_div]
  apply one_div_le_one_div_of_le hx
  linarith

/-- `ln 10 > 2` (since `e^2 < 10`), the crude bound used throughout. -/
lemma two_lt_log_ten : (2:ℝ) < Real.log 10 := by
  rw [Real.lt_log_iff_exp_lt (by norm_num : (0:ℝ) < 10)]
  have h := Real.exp_one_lt_d9
  have h2 : Real.exp 2 = Real.exp 1 * Real.exp 1 := by
    rw [← Real.exp_add]; norm_num
  nlinarith [Real.exp_pos 1]

/-! ### The draw probability and the total -/

lemma lateDrawBoost_gt (req : PredictionRequest) : 1/10 < lateDrawBoost req := by
  unfold lateDrawBoost
  have := logistic_pos (((req.minute : ℝ) - 60) * 0.05)
  nlinarith

lemma lateDrawBoost_lt (req : PredictionRequest) : lateDrawBoost req < 3/10 := by
  unfold lateDrawBoost
  have := logistic_lt_one (((req.minute : ℝ) - 60) * 0.05)
  nlinarith

lemma closeness_pos (r_home r_away : ℝ) (req : PredictionRequest) :
    0 < closeness r_home r_away req := Real.exp_pos _

lemma closeness_le_one (r_home r_away : ℝ) (req : PredictionRequest) :
    closeness r_home r_away req ≤ 1 := by
  unfold closeness
  rw [← Real.exp_zero]
  apply Real.exp_le_exp.mpr
  have := abs_nonneg (effectiveDiff r_home r_away req)
  linarith

/-- The `min` in `p_draw` always selects its second argument: the
product is below `0.3 < 0.55`. -/
lemma pDraw_eq (r_home r_away : ℝ) (req : PredictionRequest) :
    pDraw r_home r_away req = closeness r_home r_away req * lateDrawBoost req := by
  unfold pDraw
  apply min_eq_right
  have h1 := closeness_pos r_home r_away req
  have h2 := closeness_le_one r_home r_away req
  have h3 := lateDrawBoost_gt req
  have h4 := lateDrawBoost_lt req
  nlinarith

lemma pDraw_lt (r_home r_away : ℝ) (req : PredictionRequest) :
    pDraw r_home r_away req < 3/10 := by
  rw [pDraw_eq]
  have h1 := closeness_pos r_home r_away req
  have h2 := closeness_le_one r_home r_away req
  have h3 := lateDrawBoost_gt req
  have h4 := lateDrawBoost_lt req
  nlinarith

lemma pDraw_pos (r_home r_away : ℝ) (req : PredictionRequest) :
    0 < pDraw r_home r_away req := by
  rw [pDraw_eq]
  have h1 := closeness_pos r_home r_away req
  have h3 := lateDrawBoost_gt req
  nlinarith

/-- The pre-normalization total is exactly `1`. -/
lemma total_eq_one (r_home r_away : ℝ) (req : PredictionRequest) :
    total r_home r_away req = 1 := by
  unfold total pHome pAway pAwayRaw scaleF
  ring

lemma pHomeN_eq (r_home r_away : ℝ) (req : PredictionRequest) :
    pHomeN r_home r_away req = pHome r_home r_away req := by
  unfold pHomeN
  rw [total_eq_one, div_one]

lemma pDrawN_eq (r_home r_away : ℝ) (req : PredictionRequest) :
    pDrawN r_home r_away req = pDraw r_home r_away req := by
  unfold pDrawN
  rw [total_eq_one, div_one]

lemma pAwayN_eq (r_home r_away : ℝ) (req : PredictionRequest) :
    pAwayN r_home r_away req = pAway r_home r_away req := by
  unfold pAwayN
  rw [total_eq_one, div_one]

/-- `predictCore` always takes the non-error branch. -/
lemma predictCore_eq_ok (r_home r_away : ℝ) (req : PredictionRequest) :
    predictCore r_home r_away req = Except.ok (predictResult r_home r_away req) := by
  unfold predictCore
  rw [total_eq_one]
  norm_num

/-- `pHomeN` in the `sideProb` shape. -/
lemma pHomeN_eq_sideProb (r_home r_away : ℝ) (req : PredictionRequest) :
    pHomeN r_home r_away req
      = sideProb (lateDrawBoost req) (effectiveDiff r_home r_away req) := by
  rw [pHomeN_eq]
  unfold pHome pHomeRaw scaleF
  rw [pDraw_eq]
  unfold sideProb closeness
  ring_nf

/-- `pAwayN` is `sideProb` at the negated effective diff. -/
lemma pAwayN_eq_sideProb (r_home r_away : ℝ) (req : PredictionRequest) :
    pAwayN r_home r_away req
      = sideProb (lateDrawBoost req) (-(effectiveDiff r_home r_away req)) := by
  rw [pAwayN_eq]
  unfold pAway pAwayRaw pHomeRaw scaleF sideProb
  rw [pDraw_eq]
  unfold closeness
  rw [abs_neg]
  have h : -effectiveDiff r_home r_away req / 400 * Real.log 10
      = -(effectiveDiff r_home r_away req / 400 * Real.log 10) := by ring
  rw [h, logistic_neg]
  ring_nf

/-! ### Strict monotonicity of the home-side probability in the
effective diff -/

set_option maxHeartbeats 1000000 in
lemma sideProb_lt_of_nonpos (b : ℝ) (hb0 : 0 < b) (hb : b < 3/10)
    (e1 e2 : ℝ) (h12 : e1 < e2) (h2 : e2 ≤ 0) :
    sideProb b e1 < sideProb b e2 := by
  have he1 : e1 ≤ 0 := le_trans h12.le h2
  unfold sideProb
  rw [abs_of_nonpos he1, abs_of_nonpos h2]
  simp only [neg_neg]
  rw [logistic_eq_exp, logistic_eq_exp]
  have hL := two_lt_log_ten
  set s1 := Real.exp (e1 / 400 * Real.log 10) with hs1def
  set s2 := Real.exp (e2 / 400 * Real.log 10) with hs2def
  set t1 := Real.exp (e1 / 200) with ht1def
  set t2 := Real.exp (e2 / 200) with ht2def
  set p := Real.exp ((e1 - e2) / 400 * Real.log 10) with hpdef
  set q := Real.exp ((e1 - e2) / 200) with hqdef
  have hs1 : 0 < s1 := Real.exp_pos _
  have hs2 : 0 < s2 := Real.exp_pos _
  have ht20 : 0 < t2 := Real.exp_pos _
  have hq0 : 0 < q := Real.exp_pos _
  have hs1le : s1 ≤ 1 := by
    rw [hs1def, ← Real.exp_zero]
    apply Real.exp_le_exp.mpr
    nlinarith [mul_nonneg (by linarith : (0:ℝ) ≤ -e1) (by linarith : (0:ℝ) ≤ Real.log 10)]
  have hs2le : s2 ≤ 1 := by
    rw [hs2def, ← Real.exp_zero]
    apply Real.exp_le_exp.mpr
    nlinarith [mul_nonneg (by linarith : (0:ℝ) ≤ -e2) (by linarith : (0:ℝ) ≤ Real.log 10)]
  have ht2le : t2 ≤ 1 := by
    rw [ht2def, ← Real.exp_zero]
    apply Real.exp_le_exp.mpr
    linarith
  have hp : s1 = s2 * p := by
    rw [hs1def, hs2def, hpdef, ← Real.exp_add]
    congr 1
    ring
  have hq : t1 = t2 * q := by
    rw [ht1def, ht2def, hqdef, ← Real.exp_add]
    congr 1
    ring
  have hpq : p ≤ q := by
    rw [hpdef, hqdef]
    apply Real.exp_le_exp.mpr
    nlinarith [mul_nonneg (by linarith : (0:ℝ) ≤ e2 - e1)
      (by linarith : (0:ℝ) ≤ Real.log 10 - 2)]
  have hq1 : q < 1 := by
    rw [hqdef, ← Real.exp_zero]
    apply Real.exp_lt_exp.mpr
    linarith
  have h1q : (0:ℝ) ≤ 1 - q := by linarith
  have ht1le : t1 ≤ 1 := by
    rw [hq]
    nlinarith [mul_nonneg (by linarith : (0:ℝ) ≤ 1 - t2) h1q]
  have ht10 : 0 < t1 := Real.exp_pos _
  rw [div_mul_eq_mul_div, div_mul_eq_mul_div,
    div_lt_div_iff₀ (by linarith) (by linarith)]
  -- goal: s1 * (1 - b * t1) * (1 + s2) < s2 * (1 - b * t2) * (1 + s1)
  have hA : s2 * (1 - q) ≤ s2 - s1 := by
    rw [hp]
    nlinarith [mul_le_mul_of_nonneg_left hpq hs2.le]
  have hb1 : (7:ℝ)/10 ≤ 1 - b * t1 := by
    nlinarith [mul_le_mul_of_nonneg_left ht1le hb0.le]
  have hA0 : 0 ≤ s2 * (1 - q) := by positivity
  have step1 : s2 * (1 - q) * (7/10) ≤ (s2 - s1) * (1 - b * t1) :=
    mul_le_mul hA hb1 (by norm_num) (le_trans hA0 hA)
  have htd : t2 - t1 = t2 * (1 - q) := by
    rw [hq]
    ring
  have ht2s1 : t2 * (1 + s1) ≤ 2 := by
    nlinarith [mul_nonneg (by linarith : (0:ℝ) ≤ 1 - t2) (by linarith : (0:ℝ) ≤ 1 + s1)]
  have e1' : s2 * (t2 - t1) * (1 + s1) ≤ s2 * (1 - q) * 2 := by
    rw [htd]
    calc s2 * (t2 * (1 - q)) * (1 + s1) = s2 * (1 - q) * (t2 * (1 + s1)) := by ring
    _ ≤ s2 * (1 - q) * 2 := by
        apply mul_le_mul_of_nonneg_left ht2s1 hA0
  have hX0 : 0 ≤ s2 * (t2 - t1) * (1 + s1) := by
    have : 0 ≤ t2 - t1 := by rw [htd]; positivity
    have h1s1 : 0 ≤ 1 + s1 := by linarith
    positivity
  have step2 : b * (s2 * (t2 - t1) * (1 + s1)) ≤ (3/10) * (s2 * (1 - q) * 2) :=
    mul_le_mul hb.le e1' hX0 (by norm_num)
  have step3 : (3/10) * (s2 * (1 - q) * 2) < (7/10) * (s2 * (1 - q)) := by
    have : 0 < s2 * (1 - q) := by
      apply mul_pos hs2
      linarith
    linarith
  have key : s2 * (1 - b * t2) * (1 + s1) - s1 * (1 - b * t1) * (1 + s2)
      = (s2 - s1) * (1 - b * t1) - b * (s2 * (t2 - t1) * (1 + s1)) := by
    ring
  linarith [step1, step2, step3, key]

lemma sideProb_lt_of_nonneg (b : ℝ) (hb0 : 0 < b) (hb : b < 3/10)
    (e1 e2 : ℝ) (h12 : e1 < e2) (h1 : 0 ≤ e1) :
    sideProb b e1 < sideProb b e2 := by
  have he2 : 0 ≤ e2 := le_trans h1 h12.le
  unfold sideProb
  rw [abs_of_nonneg h1, abs_of_nonneg he2]
  have hL := two_lt_log_ten
  have hσ : logistic (e1 / 400 * Real.log 10) < logistic (e2 / 400 * Real.log 10) := by
    apply logistic_strictMono
    nlinarith [mul_pos (by linarith : (0:ℝ) < e2 - e1) (by linarith : (0:ℝ) < Real.log 10)]
  have hexp : Real.exp (-e2 / 200) < Real.exp (-e1 / 200) := by
    apply Real.exp_lt_exp.mpr
    linarith
  have hexp1 : Real.exp (-e1 / 200) ≤ 1 := by
    rw [← Real.exp_zero]
    apply Real.exp_le_exp.mpr
    linarith
  have hf : 1 - b * Real.exp (-e1 / 200) < 1 - b * Real.exp (-e2 / 200) := by
    have := mul_lt_mul_of_pos_left hexp hb0
    linarith
  have posf : 0 ≤ 1 - b * Real.exp (-e1 / 200) := by
    nlinarith [mul_le_mul_of_nonneg_left hexp1 hb0.le]
  exact mul_lt_mul'' hσ hf (logistic_pos _).le posf

/-- `sideProb b` is strictly increasing in the effective diff whenever
the boost `b` lies in `(0, 0.3)` (as `lateDrawBoost` always does). -/
lemma sideProb_strictMono (b : ℝ) (hb0 : 0 < b) (hb : b < 3/10) :
    StrictMono (sideProb b) := by
  intro e1 e2 h
  rcases le_or_lt e2 0 with h2 | h2
  · exact sideProb_lt_of_nonpos b hb0 hb e1 e2 h h2
  rcases le_or_lt 0 e1 with h1 | h1
  · exact sideProb_lt_of_nonneg b hb0 hb e1 e2 h h1
  · exact lt_trans (sideProb_lt_of_nonpos b hb0 hb e1 0 h1 le_rfl)
      (sideProb_lt_of_nonneg b hb0 hb 0 e2 h2 le_rfl)

/-! ### Rounding facts -/

lemma abs_round4_sub (x : ℝ) : |round4 x - x| ≤ 1/20000 := by
  rw [abs_sub_comm]
  have h := abs_sub_round (x * 10000)
  have heq : x - round4 x = (x * 10000 - ((round (x * 10000) : ℤ) : ℝ)) / 10000 := by
    unfold round4
    ring
  rw [heq, abs_div, abs_of_nonneg (by norm_num : (0:ℝ) ≤ 10000)]
  rw [div_le_iff₀ (by norm_num : (0:ℝ) < 10000)]
  calc |x * 10000 - ((round (x * 10000) : ℤ) : ℝ)| ≤ 1/2 := h
  _ ≤ 1/20000 * 10000 := by norm_num

lemma round4_mono : Monotone round4 := by
  intro x y h
  unfold round4
  have hr : round (x * 10000) ≤ round (y * 10000) := by
    rw [round_eq, round_eq]
    exact Int.floor_le_floor (by linarith)
  have hc : ((round (x * 10000) : ℤ) : ℝ) ≤ ((round (y * 10000) : ℤ) : ℝ) := by
    exact_mod_cast hr
  linarith

lemma round4_cap (x : ℝ) (h : x ≤ 0.55) : round4 x ≤ 0.55 := by
  have h1 := round4_mono h
  have h2 : round4 0.55 = 0.55 := by
    unfold round4
    have heq : (0.55:ℝ) * 10000 = ((5500 : ℤ) : ℝ) := by norm_num
    rw [heq, round_intCast]
    norm_num
  linarith

lemma round4_eq_one (x : ℝ) (h1 : 1 - 1/20000 < x) (h2 : x ≤ 1) : round4 x = 1 := by
  unfold round4
  rw [round_eq]
  have hfl : ⌊x * 10000 + 1/2⌋ = (10000 : ℤ) := by
    rw [Int.floor_eq_iff]
    constructor
    · push_cast
      linarith
    · push_cast
      linarith
  rw [hfl]
  norm_num

lemma round4_eq_zero (x : ℝ) (h1 : 0 ≤ x) (h2 : x < 1/20000) : round4 x = 0 := by
  unfold round4
  rw [round_eq]
  have hfl : ⌊x * 10000 + 1/2⌋ = (0 : ℤ) := by
    rw [Int.floor_eq_iff]
    constructor
    · push_cast
      linarith
    · push_cast
      linarith
  rw [hfl]
  norm_num

/-! ### Store lemmas -/

lemma upsert_eq (s : Store) (team : TeamRating) :
    upsert_team_rating (some s) team
      = Except.ok (upsertStore s team, upsertStatus s team) := by
  cases hf : find_one s team.team_name <;>
    simp [upsert_team_rating, upsertStore, upsertStatus, hf]

lemma find_one_eq_none_iff (s : Store) (name : String) :
    find_one s name = none ↔ ∀ d ∈ s, d.team_name ≠ name := by
  unfold find_one
  rw [List.find?_eq_none]
  simp

lemma exists_mem_update_one (s : Store) (i : ℕ) (name : String) (r : ℚ)
    (h : ∃ d ∈ s, d.team_name = name) :
    ∃ d ∈ update_one s i name r, d.team_name = name := by
  induction s with
  | nil => simp at h
  | cons hd tl ih =>
      unfold update_one
      by_cases hid : hd.oid = i
      · rw [if_pos hid]
        exact ⟨⟨hd.oid, name, some r⟩, List.mem_cons_self _ _, rfl⟩
      · rw [if_neg hid]
        rcases h with ⟨d, hmem, hname⟩
        rcases List.mem_cons.mp hmem with hd' | htl
        · exact ⟨hd, List.mem_cons_self _ _, by rw [← hd']; exact hname⟩
        · rcases ih ⟨d, htl, hname⟩ with ⟨d', hmem', hname'⟩
          exact ⟨d', List.mem_cons_of_mem _ hmem', hname'⟩

lemma exists_mem_upsertStore (s : Store) (team : TeamRating) :
    ∃ d ∈ upsertStore s team, d.team_name = team.team_name := by
  unfold upsertStore
  cases hf : find_one s team.team_name with
  | none =>
      refine ⟨⟨freshId s, team.team_name, some team.rating⟩, ?_, rfl⟩
      unfold create_document
      simp
  | some existing =>
      apply exists_mem_update_one
      refine ⟨existing, ?_, ?_⟩
      · exact List.mem_of_find?_eq_some hf
      · have := List.find?_some hf
        simpa using this

lemma find_one_upsertStore_ne_none (s : Store) (team : TeamRating) :
    find_one (upsertStore s team) team.team_name ≠ none := by
  intro h
  rcases exists_mem_upsertStore s team with ⟨d, hmem, hname⟩
  exact (find_one_eq_none_iff _ _).mp h d hmem hname

lemma upsertStatus_eq_updated (s : Store) (team : TeamRating)
    (h : find_one s team.team_name ≠ none) :
    upsertStatus s team = updatedStatus := by
  unfold upsertStatus
  cases hf : find_one s team.team_name with
  | none => exact absurd hf h
  | some _ => rfl

lemma createdStatus_ne_updatedStatus : createdStatus ≠ updatedStatus := by
  unfold createdStatus updatedStatus
  decide

/-! ### Numeric bounds for extreme leads -/

lemma minuteFactor_pos (req : PredictionRequest) : 0 < minuteFactor req :=
  logistic_pos _

lemma exp_sixteen_ge : (65536:ℝ) ≤ Real.exp 16 := by
  have h2 : (2:ℝ) ≤ Real.exp 1 := by linarith [Real.add_one_le_exp 1]
  have hp : (2:ℝ)^(16:ℕ) ≤ Real.exp 1 ^ (16:ℕ) := pow_le_pow_left₀ (by norm_num) h2 16
  have he : Real.exp (((16:ℕ):ℝ) * (1:ℝ)) = Real.exp 1 ^ (16:ℕ) := Real.exp_nat_mul 1 16
  have h16 : ((16:ℕ):ℝ) * (1:ℝ) = (16:ℝ) := by norm_num
  rw [h16] at he
  rw [← he] at hp
  norm_num at hp
  linarith

lemma exp_neg_le_small (x : ℝ) (h : 16 ≤ x) : Real.exp (-x) ≤ 1/65536 := by
  have h1 : Real.exp (-x) ≤ Real.exp (-16) := Real.exp_le_exp.mpr (by linarith)
  have h2 : Real.exp (-16) = 1 / Real.exp 16 := by
    rw [Real.exp_neg, inv_eq_one_div]
  have h3 := exp_sixteen_ge
  have h4 : 1 / Real.exp 16 ≤ 1/65536 :=
    one_div_le_one_div_of_le (by norm_num) h3
  rw [h2] at h1
  linarith

/-- Whenever the effective diff reaches `3500`, the renormalized
home-win probability is within one rounding step of `1`. -/
lemma pHomeN_near_one (r_home r_away : ℝ) (req : PredictionRequest)
    (hed : 3500 ≤ effectiveDiff r_home r_away req) :
    1 - 1/20000 < pHomeN r_home r_away req ∧ pHomeN r_home r_away req ≤ 1 := by
  have hL := two_lt_log_ten
  have hed0 : 0 < effectiveDiff r_home r_away req := by linarith
  have hy : 16 ≤ effectiveDiff r_home r_away req / 400 * Real.log 10 := by
    nlinarith [mul_le_mul hed hL.le (by norm_num : (0:ℝ) ≤ 2) (by linarith : (0:ℝ) ≤ effectiveDiff r_home r_away req)]
  have ha := one_sub_logistic_le_exp_neg (effectiveDiff r_home r_away req / 400 * Real.log 10)
  have hb' := exp_neg_le_small _ hy
  have hσlo : 1 - 1/65536 ≤ pHomeRaw r_home r_away req := by
    unfold pHomeRaw
    linarith
  have hσhi : pHomeRaw r_home r_away req < 1 := logistic_lt_one _
  have hσ0 : 0 < pHomeRaw r_home r_away req := logistic_pos _
  have hcl : closeness r_home r_away req ≤ 1/65536 := by
    unfold closeness
    have habs : 16 ≤ |effectiveDiff r_home r_away req| / 200 := by
      rw [abs_of_pos hed0]
      linarith
    have hform : -|effectiveDiff r_home r_away req| / 200
        = -(|effectiveDiff r_home r_away req| / 200) := by ring
    rw [hform]
    exact exp_neg_le_small _ habs
  have hdr : pDraw r_home r_away req ≤ (3:ℝ)/10 * (1/65536) := by
    rw [pDraw_eq]
    have hb3 := lateDrawBoost_lt req
    have hb0 := lateDrawBoost_gt req
    have hc0 := closeness_pos r_home r_away req
    nlinarith
  have hd0 := pDraw_pos r_home r_away req
  have hfin : pHomeN r_home r_away req
      = pHomeRaw r_home r_away req * (1 - pDraw r_home r_away req) := by
    rw [pHomeN_eq]
    unfold pHome scaleF
    rfl
  constructor
  · rw [hfin]
    have hdle : 1 - (3:ℝ)/10 * (1/65536) ≤ 1 - pDraw r_home r_away req := by linarith
    have hstep : (1 - 1/65536) * (1 - (3:ℝ)/10 * (1/65536))
        ≤ pHomeRaw r_home r_away req * (1 - pDraw r_home r_away req) :=
      mul_le_mul hσlo hdle (by norm_num) hσ0.le
    nlinarith
  · rw [hfin]
    have h1 : 1 - pDraw r_home r_away req ≤ 1 := by linarith
    nlinarith

/-- At ratings `1500`/`1500`, minute `0`, neutral venue and a lead of at
least `100` goals, the effective diff reaches `3500`. -/
lemma effectiveDiff_big_lead (sh : ℤ) (hsh : (100:ℝ) ≤ (sh:ℝ)) :
    3500 ≤ effectiveDiff 1500 1500 ⟨("A"), ("B"), sh, 0, 0, true⟩ := by
  have hmf := minuteFactor_pos ⟨("A"), ("B"), sh, 0, 0, true⟩
  unfold effectiveDiff diffR
  simp only [if_pos]
  have hgv : GOAL_VALUE = 50 := by norm_num [GOAL_VALUE]
  rw [hgv]
  push_cast
  nlinarith [mul_le_mul (show (5000:ℝ) ≤ (sh:ℝ) * 50 by nlinarith)
    (show (0.7:ℝ) ≤ 0.7 + 0.6 * minuteFactor ⟨("A"), ("B"), sh, 0, 0, true⟩ by linarith)
    (by norm_num : (0:ℝ) ≤ 0.7) (by nlinarith : (0:ℝ) ≤ (sh:ℝ) * 50)]

/-! ### Claim theorems -/

/-- Claim C6: for every team name with no stored record, the rating
lookup returns exactly `1500.0` and does not fail (given the store is
configured). -/
theorem missing_team_default_rating (s : Store) (name : String)
    (h : find_one s name = none) :
    get_team_rating (some s) name = Except.ok (name, 1500) := by
  simp [get_team_rating, h]

/-- Witness for `missing_team_default_rating` on the empty store. -/
theorem missing_team_default_rating_witness :
    find_one [] ("Arsenal") = none
    ∧ get_team_rating (some []) ("Arsenal") = Except.ok (("Arsenal"), 1500) :=
  ⟨rfl, missing_team_default_rating [] ("Arsenal") rfl⟩

/-- Claim C7: upsert reports `"created"` exactly when no record with the
given `team_name` exists beforehand and `"updated"` otherwise, and every
repeated upsert of the same payload after the first call reports
`"updated"`. -/
theorem upsert_status_correct (s : Store) (t : TeamRating) :
    upsert_team_rating (some s) t = Except.ok (upsertStore s t, upsertStatus s t)
    ∧ (upsertStatus s t = createdStatus ↔ find_one s t.team_name = none)
    ∧ (∀ k, 1 ≤ k → upsertStatus (upsertIter s t k) t = updatedStatus) := by
  refine ⟨upsert_eq s t, ⟨?_, ?_⟩, ?_⟩
  · intro h
    cases hf : find_one s t.team_name with
    | none => rfl
    | some d =>
        exfalso
        have hu : upsertStatus s t = updatedStatus :=
          upsertStatus_eq_updated s t (by rw [hf]; exact fun hc => Option.noConfusion hc)
        exact createdStatus_ne_updatedStatus (h.symm.trans hu)
  · intro hf
    unfold upsertStatus
    rw [hf]
  · intro k hk
    obtain ⟨j, rfl⟩ : ∃ j, k = j + 1 := ⟨k - 1, by omega⟩
    have hstep : upsertIter s t (j + 1) = upsertStore (upsertIter s t j) t := rfl
    rw [hstep]
    exact upsertStatus_eq_updated _ _ (find_one_upsertStore_ne_none _ _)

/-- Witness for `upsert_status_correct`: on the empty store the first
upsert reports `"created"` and the next one `"updated"`. -/
theorem upsert_status_correct_witness :
    upsertStatus [] ⟨("Arsenal"), 1600⟩ = createdStatus
    ∧ upsertStatus (upsertIter [] ⟨("Arsenal"), 1600⟩ 1) ⟨("Arsenal"), 1600⟩
        = updatedStatus :=
  ⟨(upsert_status_correct [] ⟨("Arsenal"), 1600⟩).2.1.mpr rfl,
   (upsert_status_correct [] ⟨("Arsenal"), 1600⟩).2.2 1 (by decide)⟩

/-- Claim C8 counterexample: a prediction request with the store not
configured does NOT fail — `predict` succeeds (src/main.py defaults both
ratings to `1500.0` when `db is None`), refuting the claim that every
store-touching operation fails with `StoreUnavailable`. -/
theorem predict_unconfigured_store_ok :
    (predict none ⟨("A"), ("B"), 0, 0, 0, false⟩).isOk = true := by
  show (predictCore 1500.0 1500.0 _).isOk = true
  rw [predictCore_eq_ok]
  rfl

/-- Claim C8 (amended): `upsert_team_rating` and `get_team_rating` check
store availability first and fail with the store-unavailable (server)
error when the store is not configured; a prediction request instead
does not fail — it silently defaults both ratings to `1500.0`. -/
theorem store_guard_behavior :
    (∀ t, upsert_team_rating none t = Except.error dbNotConfiguredMsg)
    ∧ (∀ name, get_team_rating none name = Except.error dbNotConfiguredMsg)
    ∧ (∀ req, predict none req = predictCore 1500.0 1500.0 req
        ∧ (predict none req).isOk = true) := by
  refine ⟨fun t => rfl, fun name => rfl, fun req => ⟨rfl, ?_⟩⟩
  show (predictCore 1500.0 1500.0 req).isOk = true
  rw [predictCore_eq_ok]
  rfl

/-- Claim C9: the prediction computation fails (the client-visible 400
error) exactly when the pre-renormalization sum is `≤ 0`, and that sum
is strictly positive for every input, so the error branch is
unreachable. -/
theorem predict_error_iff_total_nonpos (r_home r_away : ℝ) (req : PredictionRequest) :
    0 < total r_home r_away req
    ∧ (predictCore r_home r_away req = Except.error invalidProbMsg
        ↔ total r_home r_away req ≤ 0)
    ∧ predictCore r_home r_away req = Except.ok (predictResult r_home r_away req) := by
  have h := total_eq_one r_home r_away req
  refine ⟨by rw [h]; norm_num, ⟨?_, ?_⟩, predictCore_eq_ok r_home r_away req⟩
  · intro he
    rw [predictCore_eq_ok] at he
    exact absurd he (by simp)
  · intro hle
    rw [h] at hle
    norm_num at hle

/-- Claim C10: the pre-rounding draw probability is strictly below
`0.3`, so the `0.55` arm of the `min` in the draw computation is never
the selected one. -/
theorem draw_min_below_cap (r_home r_away : ℝ) (req : PredictionRequest) :
    pDraw r_home r_away req = closeness r_home r_away req * lateDrawBoost req
    ∧ pDraw r_home r_away req < 0.3 := by
  refine ⟨pDraw_eq r_home r_away req, ?_⟩
  have h := pDraw_lt r_home r_away req
  have h3 : (0.3:ℝ) = 3/10 := by norm_num
  rw [h3]
  exact h

/-- Claim C1: the three probabilities sum to `1` — exactly (hence within
`1e-9`) before the 4-decimal rounding, and within `1e-3` after it. -/
theorem probs_sum_to_one (r_home r_away : ℝ) (req : PredictionRequest) :
    |pHomeN r_home r_away req + pDrawN r_home r_away req
      + pAwayN r_home r_away req - 1| ≤ 1e-9
    ∧ |(predictResult r_home r_away req).p_home
        + (predictResult r_home r_away req).p_draw
        + (predictResult r_home r_away req).p_away - 1| ≤ 1e-3 := by
  have hsum : pHomeN r_home r_away req + pDrawN r_home r_away req
      + pAwayN r_home r_away req = 1 := by
    rw [pHomeN_eq, pDrawN_eq, pAwayN_eq]
    have h := total_eq_one r_home r_away req
    unfold total at h
    linarith
  constructor
  · rw [hsum]
    norm_num
  · have h1 := abs_round4_sub (pHomeN r_home r_away req)
    have h2 := abs_round4_sub (pDrawN r_home r_away req)
    have h3 := abs_round4_sub (pAwayN r_home r_away req)
    have e1 : (predictResult r_home r_away req).p_home
        = round4 (pHomeN r_home r_away req) := rfl
    have e2 : (predictResult r_home r_away req).p_draw
        = round4 (pDrawN r_home r_away req) := rfl
    have e3 : (predictResult r_home r_away req).p_away
        = round4 (pAwayN r_home r_away req) := rfl
    rw [e1, e2, e3, abs_le] at *
    have hm : (1e-3:ℝ) = 1/1000 := by norm_num
    rw [hm]
    constructor <;> [linarith [h1.1, h2.1, h3.1]; linarith [h1.2, h2.2, h3.2]]

/-- Claim C2: the returned `effective_diff` is the 2-decimal rounding of
`((r_home - r_away) + home advantage + goal lead * 50)` scaled by the
minute-confidence multiplier `0.7 + 0.6 * sigmoid((minute - 45) * 0.025)`. -/
theorem effective_diff_formula (r_home r_away : ℝ) (req : PredictionRequest) :
    (predictResult r_home r_away req).effective_diff
      = round2 ((r_home - r_away + (if req.is_neutral then 0 else 60.0)
          + ((req.home_score : ℝ) - (req.away_score : ℝ)) * 50.0)
          * (0.7 + 0.6 * logistic (((req.minute : ℝ) - 45) * 0.025))) := rfl

/-- Claim C3: the returned `p_draw` is the rounding of
`min(0.55, closeness * late_draw_boost)` and never exceeds `0.55`. -/
theorem p_draw_cap (r_home r_away : ℝ) (req : PredictionRequest) :
    (predictResult r_home r_away req).p_draw
      = round4 (min 0.55 (Real.exp (-|effectiveDiff r_home r_away req| / 200)
          * (0.1 + 0.2 * logistic (((req.minute : ℝ) - 60) * 0.05))))
    ∧ (predictResult r_home r_away req).p_draw ≤ 0.55 := by
  have hfield : (predictResult r_home r_away req).p_draw
      = round4 (pDrawN r_home r_away req) := rfl
  constructor
  · rw [hfield, pDrawN_eq]
    rfl
  · rw [hfield, pDrawN_eq]
    exact round4_cap _ (min_le_left _ _)

/-- Claim C5: on a neutral venue, swapping the two ratings and the two
scores swaps `p_home` and `p_away` and leaves `p_draw` unchanged
(exactly, hence also after rounding). -/
theorem neutral_swap_symmetry (r_home r_away : ℝ) (th ta : String)
    (sh sa m : ℤ) :
    ((predictResult r_home r_away ⟨th, ta, sh, sa, m, true⟩).p_home
        = (predictResult r_away r_home ⟨ta, th, sa, sh, m, true⟩).p_away)
    ∧ ((predictResult r_home r_away ⟨th, ta, sh, sa, m, true⟩).p_away
        = (predictResult r_away r_home ⟨ta, th, sa, sh, m, true⟩).p_home)
    ∧ ((predictResult r_home r_away ⟨th, ta, sh, sa, m, true⟩).p_draw
        = (predictResult r_away r_home ⟨ta, th, sa, sh, m, true⟩).p_draw) := by
  have hed : effectiveDiff r_away r_home ⟨ta, th, sa, sh, m, true⟩
      = -(effectiveDiff r_home r_away ⟨th, ta, sh, sa, m, true⟩) := by
    unfold effectiveDiff diffR minuteFactor
    simp only [if_pos]
    ring
  have hb : lateDrawBoost ⟨ta, th, sa, sh, m, true⟩
      = lateDrawBoost ⟨th, ta, sh, sa, m, true⟩ := rfl
  refine ⟨?_, ?_, ?_⟩
  · show round4 (pHomeN r_home r_away ⟨th, ta, sh, sa, m, true⟩)
        = round4 (pAwayN r_away r_home ⟨ta, th, sa, sh, m, true⟩)
    rw [pHomeN_eq_sideProb, pAwayN_eq_sideProb, hed, neg_neg, hb]
  · show round4 (pAwayN r_home r_away ⟨th, ta, sh, sa, m, true⟩)
        = round4 (pHomeN r_away r_home ⟨ta, th, sa, sh, m, true⟩)
    rw [pAwayN_eq_sideProb, pHomeN_eq_sideProb, hed, hb]
  · show round4 (pDrawN r_home r_away ⟨th, ta, sh, sa, m, true⟩)
        = round4 (pDrawN r_away r_home ⟨ta, th, sa, sh, m, true⟩)
    rw [pDrawN_eq, pDrawN_eq, pDraw_eq, pDraw_eq]
    unfold closeness
    rw [hed, abs_neg, hb]

/-- Claim C4 counterexample: at a 100-goal vs 101-goal lead (all else
fixed), both returned `p_home` values round to `1.0`, so the returned
`p_home` is NOT strictly larger for the larger lead. -/
theorem rounded_monotonicity_fails :
    ¬ ((predictResult 1500 1500 ⟨("A"), ("B"), 100, 0, 0, true⟩).p_home
        < (predictResult 1500 1500 ⟨("A"), ("B"), 101, 0, 0, true⟩).p_home) := by
  have hA := pHomeN_near_one 1500 1500 ⟨("A"), ("B"), 100, 0, 0, true⟩
    (effectiveDiff_big_lead 100 (by norm_num))
  have hB := pHomeN_near_one 1500 1500 ⟨("A"), ("B"), 101, 0, 0, true⟩
    (effectiveDiff_big_lead 101 (by norm_num))
  have e1 : (predictResult 1500 1500 ⟨("A"), ("B"), 100, 0, 0, true⟩).p_home
      = round4 (pHomeN 1500 1500 ⟨("A"), ("B"), 100, 0, 0, true⟩) := rfl
  have e2 : (predictResult 1500 1500 ⟨("A"), ("B"), 101, 0, 0, true⟩).p_home
      = round4 (pHomeN 1500 1500 ⟨("A"), ("B"), 101, 0, 0, true⟩) := rfl
  rw [e1, e2, round4_eq_one _ hA.1 hA.2, round4_eq_one _ hB.1 hB.2]
  exact lt_irrefl 1

/-- Claim C4 (amended): holding all else fixed, a strictly larger
`home_score - away_score` yields a strictly larger pre-rounding `p_home`
and a strictly smaller pre-rounding `p_away`; the rounded returned
values are weakly larger resp. smaller. -/
theorem score_lead_monotone (r_home r_away : ℝ) (th ta : String)
    (sh1 sa1 sh2 sa2 m : ℤ) (neu : Bool) (h : sh1 - sa1 < sh2 - sa2) :
    pHomeN r_home r_away ⟨th, ta, sh1, sa1, m, neu⟩
        < pHomeN r_home r_away ⟨th, ta, sh2, sa2, m, neu⟩
    ∧ pAwayN r_home r_away ⟨th, ta, sh2, sa2, m, neu⟩
        < pAwayN r_home r_away ⟨th, ta, sh1, sa1, m, neu⟩
    ∧ (predictResult r_home r_away ⟨th, ta, sh1, sa1, m, neu⟩).p_home
        ≤ (predictResult r_home r_away ⟨th, ta, sh2, sa2, m, neu⟩).p_home
    ∧ (predictResult r_home r_away ⟨th, ta, sh2, sa2, m, neu⟩).p_away
        ≤ (predictResult r_home r_away ⟨th, ta, sh1, sa1, m, neu⟩).p_away := by
  have hbeq : lateDrawBoost ⟨th, ta, sh2, sa2, m, neu⟩
      = lateDrawBoost ⟨th, ta, sh1, sa1, m, neu⟩ := rfl
  have hb0 : 0 < lateDrawBoost ⟨th, ta, sh1, sa1, m, neu⟩ := by
    linarith [lateDrawBoost_gt ⟨th, ta, sh1, sa1, m, neu⟩]
  have hb3 : lateDrawBoost ⟨th, ta, sh1, sa1, m, neu⟩ < 3/10 :=
    lateDrawBoost_lt _
  have hmf : minuteFactor ⟨th, ta, sh2, sa2, m, neu⟩
      = minuteFactor ⟨th, ta, sh1, sa1, m, neu⟩ := rfl
  have hm : 0 < 0.7 + 0.6 * minuteFactor ⟨th, ta, sh1, sa1, m, neu⟩ := by
    linarith [minuteFactor_pos ⟨th, ta, sh1, sa1, m, neu⟩]
  have hcast : ((sh1:ℝ)) - ((sa1:ℝ)) < ((sh2:ℝ)) - ((sa2:ℝ)) := by
    have h' : ((sh1 - sa1 : ℤ):ℝ) < ((sh2 - sa2 : ℤ):ℝ) := by exact_mod_cast h
    push_cast at h'
    linarith
  have hed : effectiveDiff r_home r_away ⟨th, ta, sh1, sa1, m, neu⟩
      < effectiveDiff r_home r_away ⟨th, ta, sh2, sa2, m, neu⟩ := by
    unfold effectiveDiff diffR
    rw [hmf]
    dsimp only
    have hgv : GOAL_VALUE = 50 := by norm_num [GOAL_VALUE]
    rw [hgv]
    nlinarith [mul_pos (show (0:ℝ) < ((sh2:ℝ) - (sa2:ℝ)) - ((sh1:ℝ) - (sa1:ℝ)) by linarith) hm]
  have h1 : pHomeN r_home r_away ⟨th, ta, sh1, sa1, m, neu⟩
      < pHomeN r_home r_away ⟨th, ta, sh2, sa2, m, neu⟩ := by
    rw [pHomeN_eq_sideProb, pHomeN_eq_sideProb, hbeq]
    exact sideProb_strictMono _ hb0 hb3 hed
  have h2 : pAwayN r_home r_away ⟨th, ta, sh2, sa2, m, neu⟩
      < pAwayN r_home r_away ⟨th, ta, sh1, sa1, m, neu⟩ := by
    rw [pAwayN_eq_sideProb, pAwayN_eq_sideProb, hbeq]
    exact sideProb_strictMono _ hb0 hb3 (neg_lt_neg hed)
  exact ⟨h1, h2, round4_mono h1.le, round4_mono h2.le⟩

/-- Witness for `score_lead_monotone` at equal ratings, minute 30, with
a 0-0 vs 1-0 score. -/
theorem score_lead_monotone_witness :
    ((0:ℤ) - 0 < 1 - 0)
    ∧ (pHomeN 1500 1500 ⟨("A"), ("B"), 0, 0, 30, false⟩
          < pHomeN 1500 1500 ⟨("A"), ("B"), 1, 0, 30, false⟩
      ∧ pAwayN 1500 1500 ⟨("A"), ("B"), 1, 0, 30, false⟩
          < pAwayN 1500 1500 ⟨("A"), ("B"), 0, 0, 30, false⟩
      ∧ (predictResult 1500 1500 ⟨("A"), ("B"), 0, 0, 30, false⟩).p_home
          ≤ (predictResult 1500 1500 ⟨("A"), ("B"), 1, 0, 30, false⟩).p_home
      ∧ (predictResult 1500 1500 ⟨("A"), ("B"), 1, 0, 30, false⟩).p_away
          ≤ (predictResult 1500 1500 ⟨("A"), ("B"), 0, 0, 30, false⟩).p_away) :=
  ⟨by decide, score_lead_monotone 1500 1500 ("A") ("B") 0 0 1 0 30 false (by decide)⟩

end SoccerPredictor
